import Mathlib

/-!
Verification development for the "Dona Neide" arcade game repository.

The data model and the operations below are a shallow embedding of the
Python sources:
  * `entities/dona_neide.py`        (player: shield / slip / boost timers, life, score)
  * `entities/item.py`              (falling items)
  * `entities/entregador_temporal.py` (the boss)
  * `entities/CaixaMissil.py`       (homing projectiles)
  * `scenes/game_scene.py`          (the compact scene controller; this is the
                                     controller instantiated by `main.py`)
  * `scenes/novogame_scene.py`      (the embellished duplicate controller; we embed
                                     its final `update` method at lines 1182-1278,
                                     its `_weighted_item_selection` and its
                                     game-over / victory hand-off)

Modelling conventions:
  * Python floats (the timers, `dt`, speeds) are modelled as rationals (`ℚ`);
    none of the verified properties depends on float rounding.
  * pygame rectangles store integers; an assignment `rect.x += f` with a float
    `f` truncates toward zero, modelled by `qtrunc`.
  * `random.choice` / `random.randint` draws are passed in as explicit
    parameters, so every theorem quantifies over all possible draws.
  * The only non-algebraic computation in the sources is the homing step of
    `CaixaMissil.update`, which normalises a direction vector with
    `math.hypot` (a real square root).  That single rect displacement is taken
    as a function parameter `mmove : Rect → Rect`; the off-screen removal rule
    and everything else about projectiles is embedded exactly.
-/

/-- Window width; `main.py` runs the game at 800x600 and the entity code uses
the literals 800/600 for clamping. -/
def WIDTH : Int := 800

/-- Window height (see `WIDTH`). -/
def HEIGHT : Int := 600

/-- Truncation toward zero, the conversion applied when a Python float is
assigned into a pygame rect coordinate. -/
def qtrunc (q : ℚ) : Int :=
  if 0 ≤ q then ⌊q⌋ else ⌈q⌉

/-- A pygame rectangle: position of the top-left corner and size. -/
structure Rect where
  x : Int
  y : Int
  w : Int
  h : Int
deriving Repr, DecidableEq

def Rect.left (r : Rect) : Int := r.x

def Rect.right (r : Rect) : Int := r.x + r.w

def Rect.top (r : Rect) : Int := r.y

def Rect.bottom (r : Rect) : Int := r.y + r.h

def Rect.centerx (r : Rect) : Int := r.x + r.w / 2

/-- `pygame.Rect.colliderect`: overlap test on half-open boxes. -/
def Rect.colliderect (a b : Rect) : Bool :=
  a.x < b.x + b.w && b.x < a.x + a.w && a.y < b.y + b.h && b.y < a.y + a.h

/-- Keyboard state consumed by `DonaNeide.process_input`. -/
structure Keys where
  left : Bool
  right : Bool
  a : Bool
  d : Bool
  space : Bool
deriving Repr, DecidableEq

/-- Player state, from `entities/dona_neide.py`.  The constant attributes
(`shield_duration`, `shield_cooldown`, `slip_duration`, `speed`) are kept as
fields because the Python code stores them on the instance. -/
structure DonaNeide where
  rect : Rect
  shield_active : Bool
  shield_duration : ℚ
  shield_timer : ℚ
  shield_cooldown : ℚ
  cooldown_timer : ℚ
  slip_timer : ℚ
  slip_duration : ℚ
  can_move : Bool
  vida : Int
  pontos : Int
  speed : ℚ
  boost_timer : ℚ
  boost_multiplier : ℚ
  dt : ℚ
deriving Repr, DecidableEq

/-- `DonaNeide.__init__` (the image arguments only determine the 64x64 rect). -/
def DonaNeide.init : DonaNeide where
  rect := ⟨400 - 32, 580 - 64, 64, 64⟩
  shield_active := false
  shield_duration := 1
  shield_timer := 0
  shield_cooldown := 5
  cooldown_timer := 0
  slip_timer := 0
  slip_duration := 1/2
  can_move := true
  vida := 3
  pontos := 0
  speed := 200
  boost_timer := 0
  boost_multiplier := 1
  dt := 0

/-- `DonaNeide.process_input` (the `keys` path used from `update`; the
`events` argument is unused there). -/
def DonaNeide.processInput (p : DonaNeide) (keys : Keys) : DonaNeide :=
  if p.slip_timer > 0 then p
  else
    let p :=
      if keys.space && !p.shield_active && decide (p.cooldown_timer ≤ 0) then
        { p with shield_active := true, shield_timer := 0 }
      else p
    let dx : Int := if keys.left || keys.a then -1 else if keys.right || keys.d then 1 else 0
    let r : Rect := { p.rect with
      x := qtrunc ((p.rect.x : ℚ) + (dx : ℚ) * p.speed * p.boost_multiplier * p.dt) }
    let r : Rect := if r.left < 0 then { r with x := 0 } else r
    let r : Rect := if r.right > (800 : Int) then { r with x := 800 - r.w } else r
    { p with rect := r }

/-- The slip-timer section at the top of `DonaNeide.update`. -/
def DonaNeide.slipPhase (p : DonaNeide) (dt : ℚ) : DonaNeide :=
  if p.slip_timer > 0 then
    let st := p.slip_timer - dt
    if st ≤ 0 then { p with slip_timer := 0, can_move := true }
    else { p with slip_timer := st }
  else p

/-- The shield/cooldown section of `DonaNeide.update`. -/
def DonaNeide.shieldPhase (p : DonaNeide) (dt : ℚ) : DonaNeide :=
  if p.shield_active then
    let t := p.shield_timer + dt
    if t ≥ p.shield_duration then
      { p with shield_timer := t, shield_active := false, cooldown_timer := p.shield_cooldown }
    else { p with shield_timer := t }
  else
    if p.cooldown_timer > 0 then
      let c := p.cooldown_timer - dt
      { p with cooldown_timer := if c < 0 then 0 else c }
    else p

/-- The boost section at the bottom of `DonaNeide.update`.  Note the source
keeps the (possibly negative) decremented timer and only resets the
multiplier. -/
def DonaNeide.boostPhase (p : DonaNeide) (dt : ℚ) : DonaNeide :=
  if p.boost_timer > 0 then
    let b := p.boost_timer - dt
    { p with boost_timer := b, boost_multiplier := if b ≤ 0 then 1 else p.boost_multiplier }
  else p

/-- `DonaNeide.update(keys, dt)`: store `dt`, run the slip phase, process
input, then the shield and boost phases, in source order. -/
def DonaNeide.update (p : DonaNeide) (keys : Keys) (dt : ℚ) : DonaNeide :=
  ((({ p with dt := dt }).slipPhase dt).processInput keys).shieldPhase dt |>.boostPhase dt

/-- `DonaNeide.boost_speed()` with its default arguments. -/
def DonaNeide.boost_speed (p : DonaNeide) : DonaNeide :=
  { p with boost_multiplier := 3/2, boost_timer := 6 }

/-- `DonaNeide.escorregar()`. -/
def DonaNeide.escorregar (p : DonaNeide) : DonaNeide :=
  { p with slip_timer := p.slip_duration, can_move := false }

/-- A falling item, from `entities/item.py`.  `speed` and the rect position
are drawn randomly at spawn time; both are passed in by the spawner model. -/
structure Item where
  tipo : String
  valor : Int
  efeito : Option String
  rect : Rect
  speed : Int
deriving Repr, DecidableEq

/-- The movement half of `Item.update`. -/
def Item.move (it : Item) (dt : ℚ) : Item :=
  { it with rect := { it.rect with y := qtrunc ((it.rect.y : ℚ) + (it.speed : ℚ) * dt) } }

/-- `Group.update(dt)` over the item pool: each item falls, then kills itself
when its top edge passes the bottom of the screen. -/
def itemsUpdate (items : List Item) (dt : ℚ) : List Item :=
  (items.map (Item.move · dt)).filter (fun it => decide (it.rect.top ≤ HEIGHT))

/-- The boss, from `entities/entregador_temporal.py`.  The `target` reference
held by the Python object is only forwarded to spawned missiles, whose homing
motion is abstracted (see the module comment), so it is not a field here. -/
structure EntregadorTemporal where
  rect : Rect
  direction : Int
  speed : ℚ
  screen_rect : Rect
  missile_timer : ℚ
  missile_interval : ℚ
  hits_taken : Nat
  max_hits : Nat
  dead : Bool
deriving Repr, DecidableEq

/-- `EntregadorTemporal.__init__`: a 100x80 rect placed with
`midtop = (screen.centerx, 20)` on the 800x600 screen. -/
def EntregadorTemporal.init : EntregadorTemporal where
  rect := ⟨400 - 50, 20, 100, 80⟩
  direction := 1
  speed := 100
  screen_rect := ⟨0, 0, 800, 600⟩
  missile_timer := 0
  missile_interval := 2
  hits_taken := 0
  max_hits := 20
  dead := false

/-- `EntregadorTemporal.update(dt)`: patrol horizontally, reflect the
direction at the screen edges, accumulate the fire timer. -/
def EntregadorTemporal.update (b : EntregadorTemporal) (dt : ℚ) : EntregadorTemporal :=
  let r := { b.rect with x := qtrunc ((b.rect.x : ℚ) + (b.direction : ℚ) * b.speed * dt) }
  let dir := if r.right > b.screen_rect.right || r.left < b.screen_rect.left
             then -b.direction else b.direction
  { b with rect := r, direction := dir, missile_timer := b.missile_timer + dt }

/-- `EntregadorTemporal.ready_to_fire()`. -/
def EntregadorTemporal.ready_to_fire (b : EntregadorTemporal) : Bool :=
  decide (b.missile_timer ≥ b.missile_interval)

/-- A homing projectile, from `entities/CaixaMissil.py`. -/
structure CaixaMissil where
  rect : Rect
  speed : ℚ
deriving Repr, DecidableEq

/-- `EntregadorTemporal.fire_missile()`: reset the fire timer and return a new
40x40 missile with `midtop = (boss.centerx, boss.bottom)`. -/
def EntregadorTemporal.fire_missile (b : EntregadorTemporal) :
    EntregadorTemporal × CaixaMissil :=
  ({ b with missile_timer := 0 },
   { rect := ⟨b.rect.centerx - 20, b.rect.bottom, 40, 40⟩, speed := 300 })

/-- `EntregadorTemporal.register_hit()`: increment the hit count; at
`max_hits` die; at exactly `max_hits // 2` (and not yet dead) accelerate the
fire interval to 1 second. -/
def EntregadorTemporal.register_hit (b : EntregadorTemporal) : EntregadorTemporal :=
  let b := { b with hits_taken := b.hits_taken + 1 }
  if b.hits_taken ≥ b.max_hits then { b with dead := true }
  else if b.hits_taken = b.max_hits / 2 then { b with missile_interval := 1 }
  else b

/-- `Group.update(dt)` over the missile pool: the homing displacement of each
rect is the parameter `mmove` (it is computed with `math.hypot` in the source,
see the module comment); a missile then kills itself when fully outside the
screen in any direction, exactly as in `CaixaMissil.update`. -/
def missilesUpdate (ms : List CaixaMissil) (mmove : Rect → Rect) : List CaixaMissil :=
  (ms.map (fun m => { m with rect := mmove m.rect })).filter
    (fun m => !(decide (m.rect.top > 600) || decide (m.rect.bottom < 0) ||
                decide (m.rect.left > 800) || decide (m.rect.right < 0)))

/-- A per-tipo row of `GameScene.item_definitions` / `item_images`:
value, effect tag, and the item rect size. -/
structure ItemDef where
  valor : Int
  efeito : Option String
  w : Int
  h : Int
deriving Repr, DecidableEq

/-- The item table of `scenes/game_scene.py` (the catch-all row is
unreachable: spawned tipos always come from `gsTipos`). -/
def gsItemDef : String → ItemDef
  | "meia"   => ⟨1, none, 100, 100⟩
  | "cubo"   => ⟨10, none, 100, 100⟩
  | "caneca" => ⟨5, none, 68, 68⟩
  | "banana" => ⟨-1, some "escorregar", 40, 40⟩
  | "toalha" => ⟨0, some "boost", 38, 38⟩
  | _        => ⟨0, none, 0, 0⟩

/-- The per-level spawnable tipo lists in `GameScene.update`. -/
def gsTipos (level : Nat) : List String :=
  if level ≤ 1 then ["meia", "cubo", "caneca"]
  else if level = 2 then ["meia", "cubo", "caneca", "banana"]
  else ["meia", "cubo", "caneca", "banana", "toalha"]

/-- `GameScene.points_to_next`. -/
def points_to_next : Nat → Option Int
  | 1 => some 10
  | 2 => some 20
  | 3 => some 25
  | 4 => some 140
  | 5 => some 200
  | 6 => some 270
  | 7 => some 350
  | _ => none

/-- `GameScene.level_configs`: spawn interval, max items, speed multiplier. -/
def level_configs : Nat → Option (ℚ × Nat × ℚ)
  | 1 => some (3, 4, 1)
  | 2 => some (5/2, 5, 6/5)
  | 3 => some (2, 6, 13/10)
  | 4 => some (3/2, 6, 7/5)
  | 5 => some (6/5, 7, 3/2)
  | 6 => some (1, 7, 8/5)
  | 7 => some (4/5, 8, 17/10)
  | 8 => some (4/5, 8, 9/5)
  | _ => none

/-- Which collaborator scene `next_scene` points at.  `controller` is the
Python idiom `self.next_scene = self`; the other constructors record the
arguments of the collaborator scene constructors in `novogame_scene.py`. -/
inductive SceneRef where
  | controller : SceneRef
  | gameOverScene : Int → Nat → SceneRef
  | victoryScene : Int → SceneRef
deriving Repr, DecidableEq

/-- The random draws a single `GameScene.update` tick can consume:
`pick` indexes `random.choice(tipos)`, `rx` is the `randint` horizontal
spawn centre, `rspeed` the `randint` fall speed. -/
structure RandSrc where
  pick : Nat
  rx : Int
  rspeed : Int

/-- State of the compact scene controller `scenes/game_scene.py`.
`missiles` is `None` in Python on non-boss levels and never read there;
it is modelled as the empty list in that case. -/
structure GameScene where
  next_scene : SceneRef
  player : DonaNeide
  level : Nat
  max_level : Nat
  spawn_interval : ℚ
  max_items : Nat
  speed_multiplier : ℚ
  spawn_timer : ℚ
  items : List Item
  boss : Option EntregadorTemporal
  missiles : List CaixaMissil
  in_transition : Bool
  transition_timer : ℚ
  transition_duration : ℚ

/-- `GameScene.load_level`: look the level up in `level_configs` (missing
levels fall back to the `cfg.get` defaults), reset the spawn timer, empty the
item pool, and install the boss exactly on level 4. -/
def GameScene.load_level (s : GameScene) (lvl : Nat) : GameScene :=
  let cfg : Option (ℚ × Nat × ℚ) := level_configs lvl
  let s := { s with
    spawn_interval := match cfg with | some c => c.1 | none => 5/2
    max_items := match cfg with | some c => c.2.1 | none => 5
    speed_multiplier := match cfg with | some c => c.2.2 | none => 1
    spawn_timer := 0
    items := [] }
  if lvl = 4 then { s with boss := some EntregadorTemporal.init, missiles := [] }
  else { s with boss := none, missiles := [] }

/-- Re-place a rect by its `midbottom` anchor, as in
`player.rect.midbottom = (WIDTH//2, HEIGHT-10)`. -/
def Rect.setMidbottom (r : Rect) (cx b : Int) : Rect :=
  ⟨cx - r.w / 2, b - r.h, r.w, r.h⟩

/-- `GameScene.start_level_transition` (sound and cutscene side effects are
outside the state model). -/
def GameScene.start_level_transition (s : GameScene) (new_level : Nat) : GameScene :=
  let s := { s with level := new_level }
  let s := s.load_level new_level
  let s := { s with in_transition := true, transition_timer := 0 }
  { s with player := { s.player with rect := s.player.rect.setMidbottom 400 590 } }

/-- One iteration of the item-collision loop in `GameScene.update`
(lines 176-185): slip and boost effects first, then score for positive
values, else shield-gated damage of `abs(valor)`. -/
def processItem (p : DonaNeide) (it : Item) : DonaNeide :=
  if it.efeito = some "escorregar" then p.escorregar
  else if it.efeito = some "boost" then p.boost_speed
  else if it.valor > 0 then { p with pontos := p.pontos + it.valor }
  else if !p.shield_active then { p with vida := p.vida - |it.valor| }
  else p

/-- The item drawn and constructed by the spawn section (lines 165-171): the
tipo comes from `random.choice` over the level's tipo list, the value/effect
from the item table, the rect from the tipo's size and the random horizontal
position, the fall speed from the random speed draw. -/
def spawnedItem (level : Nat) (rnd : RandSrc) : Item :=
  let tipos := gsTipos level
  let tipo := tipos.getD (rnd.pick % tipos.length) "meia"
  let d := gsItemDef tipo
  { tipo := tipo, valor := d.valor, efeito := d.efeito,
    rect := ⟨rnd.rx - d.w / 2, -d.h, d.w, d.h⟩, speed := rnd.rspeed }

/-- The item-spawn section of `GameScene.update` (lines 161-172): accumulate
the timer; when it reached the interval and the pool is below the cap, reset
the timer and append one item drawn from the level tipo list with the given
random draws. -/
def GameScene.spawnStep (s : GameScene) (dt : ℚ) (rnd : RandSrc) : GameScene :=
  let t := s.spawn_timer + dt
  if t ≥ s.spawn_interval ∧ s.items.length < s.max_items then
    { s with spawn_timer := 0, items := s.items ++ [spawnedItem s.level rnd] }
  else { s with spawn_timer := t }

/-- The item-collision section of `GameScene.update` (lines 174-185):
`pygame.sprite.spritecollide(player, items, True)` removes every item whose
rect overlaps the player's, and the loop dispatches each removed item's
effect. -/
def GameScene.itemCollisions (s : GameScene) : GameScene :=
  let hits := s.items.filter (fun it => s.player.rect.colliderect it.rect)
  let rest := s.items.filter (fun it => !(s.player.rect.colliderect it.rect))
  { s with items := rest, player := hits.foldl processItem s.player }

/-- The level-advance section of `GameScene.update` (lines 187-191);
`if need and ...` is Python truthiness on the looked-up threshold. -/
def GameScene.levelAdvance (s : GameScene) : GameScene :=
  if s.level < s.max_level then
    match points_to_next s.level with
    | some need => if need ≠ 0 ∧ s.player.pontos ≥ need
                   then s.start_level_transition (s.level + 1) else s
    | none => s
  else s

/-- The boss section of `GameScene.update` (lines 145-159): move boss and
missiles, fire when ready, and resolve shield-block collisions.  The compact
controller has no unblocked-hit branch: with the shield down, missiles are
left alone. -/
def GameScene.bossBranch (s : GameScene) (b : EntregadorTemporal) (dt : ℚ)
    (mmove : Rect → Rect) : GameScene :=
  let b := b.update dt
  let ms := missilesUpdate s.missiles mmove
  let fired := if b.ready_to_fire then
      let (b2, m) := b.fire_missile
      (b2, ms ++ [m])
    else (b, ms)
  let b := fired.1
  let ms := fired.2
  if s.player.shield_active then
    let rest := ms.filter (fun m => !(s.player.rect.colliderect m.rect))
    if ms.any (fun m => s.player.rect.colliderect m.rect) then
      let b := b.register_hit
      let s := { s with boss := some b, missiles := rest }
      if b.dead then s.start_level_transition 5 else s
    else { s with boss := some b, missiles := rest }
  else { s with boss := some b, missiles := ms }

/-- The spawn / collision / advance tail of `GameScene.update`. -/
def GameScene.playStep (s : GameScene) (dt : ℚ) (rnd : RandSrc) : GameScene :=
  ((s.spawnStep dt rnd).itemCollisions).levelAdvance

/-- `GameScene.update(dt)`: the transition branch freezes everything but the
transition timer; otherwise update player and items, then either run the
level-4 boss logic (and return) or the spawn/collision/advance tail. -/
def GameScene.update (s : GameScene) (dt : ℚ) (keys : Keys) (rnd : RandSrc)
    (mmove : Rect → Rect) : GameScene :=
  if s.in_transition then
    let t := s.transition_timer + dt
    if t ≥ s.transition_duration then { s with transition_timer := t, in_transition := false }
    else { s with transition_timer := t }
  else
    let s := { s with player := s.player.update keys dt }
    let s := { s with items := itemsUpdate s.items dt }
    match s.boss with
    | some b => if s.level = 4 ∧ b.dead = false then s.bossBranch b dt mmove
                else s.playStep dt rnd
    | none => s.playStep dt rnd

/-- `GameScene.__init__(level)`: player and pools fresh, `load_level`, then
the transition state (asset/sound plumbing is outside the state model). -/
def GameScene.init (level : Nat) : GameScene :=
  let s : GameScene := {
    next_scene := SceneRef.controller
    player := DonaNeide.init
    level := level
    max_level := 8
    spawn_interval := 5/2
    max_items := 5
    speed_multiplier := 1
    spawn_timer := 0
    items := []
    boss := none
    missiles := []
    in_transition := true
    transition_timer := 0
    transition_duration := 2 }
  let s := s.load_level level
  { s with in_transition := true, transition_timer := 0, transition_duration := 2 }

/-- `sum(weights.values())` in `_weighted_item_selection`; weight tables are
association lists in dict declaration order. -/
def totalWeight (w : List (String × Nat)) : Nat :=
  (w.map (fun kv => kv.2)).sum

/-- The accumulation loop of `_weighted_item_selection`: walk the table in
declaration order keeping a running sum, return the first kind whose
cumulative sum reaches the draw. -/
def cumulativeWalk (rand : Nat) : List (String × Nat) → Nat → Option String
  | [], _ => none
  | (k, wt) :: rest, acc =>
    if rand ≤ acc + wt then some k else cumulativeWalk rand rest (acc + wt)

/-- `GameScene._weighted_item_selection` from `scenes/novogame_scene.py`
(lines 1138-1154), with the uniform draw `rand` passed in: zero total weight
falls back to `"meia"`; a draw the walk does not answer falls back to the
first key (`headD` models `list(weights.keys())[0]`, which is unreachable for
the actual draws). -/
def weightedItemSelection (w : List (String × Nat)) (rand : Nat) : String :=
  if totalWeight w = 0 then "meia"
  else
    match cumulativeWalk rand w 0 with
    | some k => k
    | none => (w.map (fun kv => kv.1)).headD "meia"

/-- Prefix sums of a weight table, used to state the spec-side description of
the draw. -/
def prefixWeight (w : List (String × Nat)) (i : Nat) : Nat :=
  ((w.take i).map (fun kv => kv.2)).sum

/-- Modelled from the spec wording of the cumulative-weight technique, for
the refinement comparison with `weightedItemSelection`: "walk kinds in
table-declaration order accumulating weights, return first kind whose
cumulative sum ≥ draw". -/
def specCumulativeDraw (w : List (String × Nat)) (rand : Nat) : Option String :=
  ((List.range w.length).find? (fun i => decide (rand ≤ prefixWeight w (i + 1)))).map
    (fun i => (w.map (fun kv => kv.1)).getD i "")

/-- The `item_weights` tables of `_setup_enhanced_level_configurations` in
`scenes/novogame_scene.py`, in dict declaration order. -/
def ngItemWeights : Nat → List (String × Nat)
  | 1 => [("meia", 50), ("cubo", 25), ("caneca", 25)]
  | 2 => [("meia", 40), ("cubo", 25), ("caneca", 25), ("banana", 10)]
  | 3 => [("meia", 35), ("cubo", 25), ("caneca", 20), ("banana", 15), ("toalha", 5)]
  | 4 => [("meia", 30), ("cubo", 30), ("caneca", 25), ("banana", 10), ("toalha", 5)]
  | 5 => [("meia", 30), ("cubo", 25), ("caneca", 20), ("banana", 15), ("toalha", 8),
          ("estrela", 2)]
  | 6 => [("meia", 25), ("cubo", 25), ("caneca", 20), ("banana", 15), ("toalha", 10),
          ("estrela", 3), ("relógio", 2)]
  | 7 => [("meia", 25), ("cubo", 20), ("caneca", 20), ("banana", 15), ("toalha", 10),
          ("estrela", 5), ("relógio", 3), ("coração", 2)]
  | 8 => [("meia", 20), ("cubo", 25), ("caneca", 15), ("banana", 20), ("toalha", 10),
          ("estrela", 5), ("relógio", 3), ("coração", 2)]
  | 9 => [("meia", 15), ("cubo", 30), ("caneca", 15), ("banana", 15), ("toalha", 12),
          ("estrela", 8), ("relógio", 3), ("coração", 2)]
  | 10 => [("meia", 15), ("cubo", 25), ("caneca", 15), ("banana", 20), ("toalha", 10),
           ("estrela", 8), ("relógio", 4), ("coração", 3)]
  | 11 => [("meia", 10), ("cubo", 30), ("caneca", 15), ("banana", 25), ("toalha", 8),
           ("estrela", 7), ("relógio", 3), ("coração", 2)]
  | 12 => [("meia", 10), ("cubo", 25), ("caneca", 10), ("banana", 30), ("toalha", 10),
           ("estrela", 10), ("relógio", 3), ("coração", 2)]
  | _ => []

/-- One row of the level table of `novogame_scene.py` (the fields its
final `update` path reads). -/
structure NGConfig where
  spawn_interval : ℚ
  max_items : Nat
  speed_multiplier : ℚ
  boss : Option String
  item_weights : List (String × Nat)

/-- `self.level_configs` of `novogame_scene.py` (levels 1..12). -/
def ngConfigs : Nat → Option NGConfig
  | 1 => some ⟨7/2, 4, 1, none, ngItemWeights 1⟩
  | 2 => some ⟨3, 5, 11/10, none, ngItemWeights 2⟩
  | 3 => some ⟨5/2, 6, 6/5, none, ngItemWeights 3⟩
  | 4 => some ⟨2, 6, 13/10, some "entregador_temporal", ngItemWeights 4⟩
  | 5 => some ⟨11/5, 7, 7/5, none, ngItemWeights 5⟩
  | 6 => some ⟨9/5, 7, 3/2, none, ngItemWeights 6⟩
  | 7 => some ⟨3/2, 8, 8/5, none, ngItemWeights 7⟩
  | 8 => some ⟨6/5, 8, 17/10, some "mega_boss", ngItemWeights 8⟩
  | 9 => some ⟨1, 9, 9/5, none, ngItemWeights 9⟩
  | 10 => some ⟨9/10, 10, 19/10, none, ngItemWeights 10⟩
  | 11 => some ⟨4/5, 11, 2, none, ngItemWeights 11⟩
  | 12 => some ⟨7/10, 12, 11/5, some "final_boss", ngItemWeights 12⟩
  | _ => none

/-- `self.points_to_next` of `novogame_scene.py` (levels 1..12). -/
def points_to_next_ng : Nat → Option Int
  | 1 => some 10
  | 2 => some 25
  | 3 => some 50
  | 4 => some 140
  | 5 => some 200
  | 6 => some 280
  | 7 => some 380
  | 8 => some 500
  | 9 => some 650
  | 10 => some 820
  | 11 => some 1000
  | 12 => some 1200
  | _ => none

/-- The game-state enum of `novogame_scene.py`. -/
inductive NGState where
  | transitioning
  | playing
  | bossFight
  | paused
  | gameOver
  | victory
deriving Repr, DecidableEq

/-- State of the embellished controller `scenes/novogame_scene.py`, reduced
to the fields its final `update` method (lines 1182-1278) and the helpers it
calls read or write. -/
structure NovoGameScene where
  next_scene : SceneRef
  player : DonaNeide
  level : Nat
  max_level : Nat
  spawn_interval : ℚ
  max_items : Nat
  speed_multiplier : ℚ
  current_item_weights : List (String × Nat)
  spawn_timer : ℚ
  items : List Item
  boss : Option EntregadorTemporal
  missiles : List CaixaMissil
  in_transition : Bool
  transition_timer : ℚ
  transition_duration : ℚ
  game_state : NGState

/-- `novogame_scene.py`'s `load_level`: clamp the level to `max_level`, fall
back to the level-1 row for a missing level, install the configuration, reset
spawn state, and set up the boss (`_create_advanced_boss` returns `None`, so
only `"entregador_temporal"` yields an actual boss object). -/
def NovoGameScene.load_level (s : NovoGameScene) (lvl0 : Nat) : NovoGameScene :=
  let lvl := if lvl0 > s.max_level then s.max_level else lvl0
  let cfg := match ngConfigs lvl with
             | some c => c
             | none => ⟨7/2, 4, 1, none, ngItemWeights 1⟩
  let s := { s with
    spawn_interval := cfg.spawn_interval
    max_items := cfg.max_items
    speed_multiplier := cfg.speed_multiplier
    current_item_weights := cfg.item_weights
    spawn_timer := 0
    items := [] }
  match cfg.boss with
  | some bt =>
    if bt = "entregador_temporal" then
      { s with boss := some EntregadorTemporal.init, missiles := [],
               game_state := NGState.bossFight }
    else
      { s with boss := none, missiles := [], game_state := NGState.bossFight }
  | none => { s with boss := none, missiles := [], game_state := NGState.playing }

/-- `novogame_scene.py`'s `start_level_transition` (visual/particle side
effects are outside the state model). -/
def NovoGameScene.start_level_transition (s : NovoGameScene) (new_level : Nat) :
    NovoGameScene :=
  if new_level > s.max_level then { s with game_state := NGState.victory }
  else
    let s := { s with level := new_level }
    let s := s.load_level new_level
    let s := { s with in_transition := true, transition_timer := 0 }
    { s with player := { s.player with rect := s.player.rect.setMidbottom 400 590 } }

/-- `handle_game_over`: hand the driver a `GameOverScene(pontos, level)`. -/
def NovoGameScene.handle_game_over (s : NovoGameScene) : NovoGameScene :=
  { s with next_scene := SceneRef.gameOverScene s.player.pontos s.level }

/-- `handle_victory`: hand the driver a `VictoryScene(pontos)`. -/
def NovoGameScene.handle_victory (s : NovoGameScene) : NovoGameScene :=
  { s with next_scene := SceneRef.victoryScene s.player.pontos }

/-- The projectile-collision block of the final `update` of
`novogame_scene.py` (lines 1204-1223), applied to the already-moved boss `b`
and missile list `ms`: with the shield up, every overlapping missile is
destroyed and one boss hit is registered (level transition on death); with
the shield down, every overlapping missile is destroyed, life drops by 1 and
game over is checked. -/
def NovoGameScene.missileCollisionPhase (s : NovoGameScene) (b : EntregadorTemporal)
    (ms : List CaixaMissil) : NovoGameScene :=
  if s.player.shield_active then
    let rest := ms.filter (fun m => !(s.player.rect.colliderect m.rect))
    if ms.any (fun m => s.player.rect.colliderect m.rect) then
      let b := b.register_hit
      let s := { s with boss := some b, missiles := rest }
      if b.dead then s.start_level_transition 5 else s
    else { s with boss := some b, missiles := rest }
  else
    let rest := ms.filter (fun m => !(s.player.rect.colliderect m.rect))
    if ms.any (fun m => s.player.rect.colliderect m.rect) then
      let p : DonaNeide := { s.player with vida := s.player.vida - 1 }
      let s := { s with player := p, boss := some b, missiles := rest }
      if p.vida ≤ 0 then s.handle_game_over else s
    else { s with boss := some b, missiles := rest }

/-- The boss section of the final `update` of `novogame_scene.py`
(lines 1194-1224): move boss and missiles, fire when ready, then the
collision phase. -/
def NovoGameScene.bossBranch (s : NovoGameScene) (b : EntregadorTemporal) (dt : ℚ)
    (mmove : Rect → Rect) : NovoGameScene :=
  let b := b.update dt
  let ms := missilesUpdate s.missiles mmove
  let fired := if b.ready_to_fire then
      let (b2, m) := b.fire_missile
      (b2, ms ++ [m])
    else (b, ms)
  s.missileCollisionPhase fired.1 fired.2

/-- One iteration of the item-collision loop of the final `update`
(lines 1243-1261): like the compact controller's dispatch, but an unblocked
damage hit is followed by a game-over check. -/
def ngProcessItem (s : NovoGameScene) (it : Item) : NovoGameScene :=
  if it.efeito = some "escorregar" then { s with player := s.player.escorregar }
  else if it.efeito = some "boost" then { s with player := s.player.boost_speed }
  else if it.valor > 0 then
    { s with player := { s.player with pontos := s.player.pontos + it.valor } }
  else if !s.player.shield_active then
    let p : DonaNeide := { s.player with vida := s.player.vida - |it.valor| }
    let s := { s with player := p }
    if p.vida ≤ 0 then s.handle_game_over else s
  else s

/-- The item-spawn section of the final `update` (lines 1227-1239); it is the
same `random.choice(tipos)` draw as the compact controller. -/
def NovoGameScene.spawnStep (s : NovoGameScene) (dt : ℚ) (rnd : RandSrc) : NovoGameScene :=
  let t := s.spawn_timer + dt
  if t ≥ s.spawn_interval ∧ s.items.length < s.max_items then
    { s with spawn_timer := 0, items := s.items ++ [spawnedItem s.level rnd] }
  else { s with spawn_timer := t }

/-- The item-collision section of the final `update` (lines 1242-1261). -/
def NovoGameScene.itemCollisions (s : NovoGameScene) : NovoGameScene :=
  let hits := s.items.filter (fun it => s.player.rect.colliderect it.rect)
  let rest := s.items.filter (fun it => !(s.player.rect.colliderect it.rect))
  hits.foldl ngProcessItem { s with items := rest }

/-- The redundant off-screen sweep of the final `update` (lines 1264-1266). -/
def NovoGameScene.offscreenSweep (s : NovoGameScene) : NovoGameScene :=
  { s with items := s.items.filter (fun it => !(decide (it.rect.top > HEIGHT))) }

/-- The level-advance section of the final `update` (lines 1269-1272). -/
def NovoGameScene.levelAdvance (s : NovoGameScene) : NovoGameScene :=
  if s.level < s.max_level then
    match points_to_next_ng s.level with
    | some need => if need ≠ 0 ∧ s.player.pontos ≥ need
                   then s.start_level_transition (s.level + 1) else s
    | none => s
  else s

/-- The victory check of the final `update` (lines 1275-1278): on the last
level, double the last threshold wins. -/
def NovoGameScene.victoryCheck (s : NovoGameScene) : NovoGameScene :=
  if s.level = s.max_level then
    let final_points := (points_to_next_ng (s.max_level - 1)).getD 500
    if s.player.pontos ≥ final_points * 2 then s.handle_victory else s
  else s

/-- The spawn / collision / sweep / advance / victory tail of the final
`update`. -/
def NovoGameScene.playStep (s : NovoGameScene) (dt : ℚ) (rnd : RandSrc) : NovoGameScene :=
  ((((s.spawnStep dt rnd).itemCollisions).offscreenSweep).levelAdvance).victoryCheck

/-- The final `update(dt)` of `novogame_scene.py` (lines 1182-1278). -/
def NovoGameScene.update (s : NovoGameScene) (dt : ℚ) (keys : Keys) (rnd : RandSrc)
    (mmove : Rect → Rect) : NovoGameScene :=
  if s.in_transition then
    let t := s.transition_timer + dt
    if t ≥ s.transition_duration then { s with transition_timer := t, in_transition := false }
    else { s with transition_timer := t }
  else
    let s := { s with player := s.player.update keys dt }
    let s := { s with items := itemsUpdate s.items dt }
    match s.boss with
    | some b => if s.level = 4 ∧ b.dead = false then s.bossBranch b dt mmove
                else s.playStep dt rnd
    | none => s.playStep dt rnd

theorem DonaNeide.processInput_vida (p : DonaNeide) (keys : Keys) :
    (p.processInput keys).vida = p.vida := by
  unfold DonaNeide.processInput
  split
  · rfl
  · dsimp only
    split <;> rfl

theorem DonaNeide.processInput_pontos (p : DonaNeide) (keys : Keys) :
    (p.processInput keys).pontos = p.pontos := by
  unfold DonaNeide.processInput
  split
  · rfl
  · dsimp only
    split <;> rfl

theorem DonaNeide.slipPhase_vida (p : DonaNeide) (dt : ℚ) :
    (p.slipPhase dt).vida = p.vida := by
  unfold DonaNeide.slipPhase
  split
  · dsimp only
    split <;> rfl
  · rfl

theorem DonaNeide.slipPhase_pontos (p : DonaNeide) (dt : ℚ) :
    (p.slipPhase dt).pontos = p.pontos := by
  unfold DonaNeide.slipPhase
  split
  · dsimp only
    split <;> rfl
  · rfl

theorem DonaNeide.shieldPhase_vida (p : DonaNeide) (dt : ℚ) :
    (p.shieldPhase dt).vida = p.vida := by
  unfold DonaNeide.shieldPhase
  split
  · dsimp only
    split <;> rfl
  · split <;> rfl

theorem DonaNeide.shieldPhase_pontos (p : DonaNeide) (dt : ℚ) :
    (p.shieldPhase dt).pontos = p.pontos := by
  unfold DonaNeide.shieldPhase
  split
  · dsimp only
    split <;> rfl
  · split <;> rfl

theorem DonaNeide.boostPhase_vida (p : DonaNeide) (dt : ℚ) :
    (p.boostPhase dt).vida = p.vida := by
  unfold DonaNeide.boostPhase
  split <;> rfl

theorem DonaNeide.boostPhase_pontos (p : DonaNeide) (dt : ℚ) :
    (p.boostPhase dt).pontos = p.pontos := by
  unfold DonaNeide.boostPhase
  split <;> rfl

/-- `DonaNeide.update` never changes the life counter. -/
theorem DonaNeide.update_vida (p : DonaNeide) (keys : Keys) (dt : ℚ) :
    (p.update keys dt).vida = p.vida := by
  unfold DonaNeide.update
  rw [DonaNeide.boostPhase_vida, DonaNeide.shieldPhase_vida, DonaNeide.processInput_vida,
    DonaNeide.slipPhase_vida]

/-- `DonaNeide.update` never changes the score. -/
theorem DonaNeide.update_pontos (p : DonaNeide) (keys : Keys) (dt : ℚ) :
    (p.update keys dt).pontos = p.pontos := by
  unfold DonaNeide.update
  rw [DonaNeide.boostPhase_pontos, DonaNeide.shieldPhase_pontos, DonaNeide.processInput_pontos,
    DonaNeide.slipPhase_pontos]

/-- Claim C1: in the item-collision dispatch of the scene controller's
update, an item with no special effect and value ≤ 0 leaves life unchanged
when the shield is active at the moment of collision, and costs exactly
`abs(value)` life when it is not. -/
theorem c1_shield_absorption (p : DonaNeide) (it : Item)
    (hef : it.efeito = none) (hv : it.valor ≤ 0) :
    (p.shield_active = true → (processItem p it).vida = p.vida) ∧
    (p.shield_active = false → (processItem p it).vida = p.vida - |it.valor|) := by
  constructor
  · intro h
    simp [processItem, hef, h, not_lt.mpr hv]
  · intro h
    simp [processItem, hef, h, not_lt.mpr hv]

/-- A concrete damage item used to witness C1. -/
def itemC1 : Item :=
  { tipo := "teste", valor := -2, efeito := none, rect := ⟨0, 0, 10, 10⟩, speed := 0 }

theorem c1_shield_absorption_witness :
    DonaNeide.init.shield_active = false ∧
    (processItem DonaNeide.init itemC1).vida = DonaNeide.init.vida - |itemC1.valor| :=
  ⟨rfl, (c1_shield_absorption DonaNeide.init itemC1 rfl (by decide)).2 rfl⟩

/-- Boss state after `n` calls to `register_hit`, starting from the freshly
constructed boss. -/
def bossAfterHits (n : Nat) : EntregadorTemporal :=
  EntregadorTemporal.register_hit^[n] EntregadorTemporal.init

theorem bossAfterHits_spec (n : Nat) :
    (bossAfterHits n).hits_taken = n ∧ (bossAfterHits n).max_hits = 20 ∧
    (bossAfterHits n).dead = decide (20 ≤ n) ∧
    (bossAfterHits n).missile_interval = if 10 ≤ n then 1 else 2 := by
  induction n with
  | zero => refine ⟨rfl, rfl, rfl, ?_⟩; norm_num [bossAfterHits, EntregadorTemporal.init]
  | succ n ih =>
    obtain ⟨h1, h2, h3, h4⟩ := ih
    have hstep : bossAfterHits (n + 1) =
        (bossAfterHits n).register_hit := by
      unfold bossAfterHits
      rw [Function.iterate_succ_apply']
    unfold EntregadorTemporal.register_hit at hstep
    dsimp only at hstep
    rw [h1, h2] at hstep
    by_cases hc : n + 1 ≥ 20
    · rw [if_pos hc] at hstep
      rw [hstep]
      refine ⟨rfl, rfl, ?_, ?_⟩
      · dsimp only
        symm
        rw [decide_eq_true_eq]
        omega
      · dsimp only
        rw [h4]
        have h10 : 10 ≤ n := by omega
        have h10s : 10 ≤ n + 1 := by omega
        rw [if_pos h10, if_pos h10s]
    · rw [if_neg hc] at hstep
      by_cases hh : n + 1 = 20 / 2
      · rw [if_pos hh] at hstep
        rw [hstep]
        refine ⟨rfl, rfl, ?_, ?_⟩
        · dsimp only
          rw [h3]
          exact decide_eq_decide.mpr (by omega)
        · dsimp only
          have : 10 ≤ n + 1 := by omega
          rw [if_pos this]
      · rw [if_neg hh] at hstep
        rw [hstep]
        refine ⟨rfl, rfl, ?_, ?_⟩
        · dsimp only
          rw [h3]
          exact decide_eq_decide.mpr (by omega)
        · dsimp only
          rw [h4]
          have : (10 ≤ n) ↔ (10 ≤ n + 1) := by omega
          by_cases h10 : 10 ≤ n
          · rw [if_pos h10, if_pos (this.mp h10)]
          · rw [if_neg h10, if_neg (fun hx => h10 (this.mpr hx))]

/-- Claim C4: along any sequence of `register_hit` calls, the hit count is
non-decreasing, `dead` holds exactly when the hit count has reached
`max_hit_count`, and `dead` never reverts to `false`. -/
theorem c4_boss_death_monotone (n : Nat) :
    (bossAfterHits n).hits_taken ≤ (bossAfterHits (n + 1)).hits_taken ∧
    ((bossAfterHits n).dead = true ↔
      (bossAfterHits n).max_hits ≤ (bossAfterHits n).hits_taken) ∧
    ((bossAfterHits n).dead = true → (bossAfterHits (n + 1)).dead = true) := by
  obtain ⟨h1, h2, h3, _⟩ := bossAfterHits_spec n
  obtain ⟨g1, g2, g3, _⟩ := bossAfterHits_spec (n + 1)
  refine ⟨?_, ?_, ?_⟩
  · rw [h1, g1]; omega
  · rw [h1, h2, h3]; simp
  · rw [h3, g3]; simp; omega

theorem c4_boss_death_monotone_witness :
    (bossAfterHits 20).dead = true ∧ (bossAfterHits 21).dead = true :=
  ⟨((c4_boss_death_monotone 20).2.1).mpr (by decide),
   (c4_boss_death_monotone 20).2.2 (((c4_boss_death_monotone 20).2.1).mpr (by decide))⟩

/-- Claim C5: along any sequence of `register_hit` calls, the fire interval
changes only at the call on which the hit count first reaches
`max_hit_count // 2`, where it is halved (2 seconds to 1 second), and is
unchanged by every other call. -/
theorem c5_fire_interval_ramp (n : Nat) :
    ((bossAfterHits n).hits_taken + 1 = (bossAfterHits n).max_hits / 2 →
      (bossAfterHits n).missile_interval = 2 ∧
      (bossAfterHits (n + 1)).missile_interval = 1 ∧
      (bossAfterHits (n + 1)).missile_interval = (bossAfterHits n).missile_interval / 2) ∧
    ((bossAfterHits n).hits_taken + 1 ≠ (bossAfterHits n).max_hits / 2 →
      (bossAfterHits (n + 1)).missile_interval = (bossAfterHits n).missile_interval) := by
  obtain ⟨h1, h2, _, h4⟩ := bossAfterHits_spec n
  obtain ⟨_, _, _, g4⟩ := bossAfterHits_spec (n + 1)
  rw [h1, h2, h4, g4]
  constructor
  · intro h
    have hn : n = 9 := by omega
    subst hn
    norm_num
  · intro h
    have : (10 ≤ n) ↔ (10 ≤ n + 1) := by omega
    by_cases h10 : 10 ≤ n
    · rw [if_pos h10, if_pos (this.mp h10)]
    · rw [if_neg h10, if_neg (fun hx => h10 (this.mpr hx))]

theorem c5_fire_interval_ramp_witness :
    (bossAfterHits 10).missile_interval = 1 ∧
    (bossAfterHits 1).missile_interval = (bossAfterHits 0).missile_interval :=
  ⟨((c5_fire_interval_ramp 9).1 (by decide)).2.1,
   (c5_fire_interval_ramp 0).2 (by decide)⟩

/-- Claim C6: for any `dt`, the spawn section of the controller's update
never inserts an item when the pool has reached `max_items`, creates at most
one item per tick, and creates one only when the accumulated spawn timer has
reached the spawn interval, in which case the timer is reset to 0. -/
theorem c6_population_cap (s : GameScene) (dt : ℚ) (rnd : RandSrc) :
    (s.max_items ≤ s.items.length →
      (s.spawnStep dt rnd).items = s.items ∧
      (s.spawnStep dt rnd).spawn_timer = s.spawn_timer + dt) ∧
    (s.spawnStep dt rnd).items.length ≤ s.items.length + 1 ∧
    (s.spawn_timer + dt < s.spawn_interval → (s.spawnStep dt rnd).items = s.items) ∧
    ((s.spawnStep dt rnd).items ≠ s.items →
      s.spawn_interval ≤ s.spawn_timer + dt ∧
      (s.spawnStep dt rnd).items.length = s.items.length + 1 ∧
      (s.spawnStep dt rnd).spawn_timer = 0) := by
  by_cases hc : s.spawn_timer + dt ≥ s.spawn_interval ∧ s.items.length < s.max_items
  · obtain ⟨ht, hlen⟩ := hc
    have hstep : s.spawnStep dt rnd =
        { s with spawn_timer := 0, items := s.items ++ [spawnedItem s.level rnd] } := by
      simp only [GameScene.spawnStep, if_pos (And.intro ht hlen)]
    rw [hstep]
    refine ⟨fun hmax => absurd hmax (not_le.mpr hlen), by simp,
      fun hlt => absurd ht (not_le.mpr hlt), fun _ => ⟨ht, by simp, rfl⟩⟩
  · have hstep : s.spawnStep dt rnd = { s with spawn_timer := s.spawn_timer + dt } := by
      simp only [GameScene.spawnStep, if_neg hc]
    rw [hstep]
    exact ⟨fun _ => ⟨rfl, rfl⟩, Nat.le_succ _, fun _ => rfl, fun hne => absurd rfl hne⟩

/-- A concrete mid-play controller state used to witness C6 and C8. -/
def sceneA : GameScene :=
  { next_scene := SceneRef.controller
    player := DonaNeide.init
    level := 1
    max_level := 8
    spawn_interval := 3
    max_items := 4
    speed_multiplier := 1
    spawn_timer := 0
    items := []
    boss := none
    missiles := []
    in_transition := true
    transition_timer := 0
    transition_duration := 2 }

theorem c6_population_cap_witness :
    sceneA.spawn_timer + 1 < sceneA.spawn_interval ∧
    (sceneA.spawnStep 1 ⟨0, 0, 0⟩).items = sceneA.items :=
  ⟨by norm_num [sceneA], (c6_population_cap sceneA 1 ⟨0, 0, 0⟩).2.2.1 (by norm_num [sceneA])⟩

/-- Claim C8: while the controller is in the transition state, `update(dt)`
advances only the transition timer (clearing the flag exactly when the timer
reaches the transition duration); player, item pool, missiles, boss, level,
spawn state and hand-off reference are all untouched. -/
theorem c8_transition_freeze (s : GameScene) (dt : ℚ) (keys : Keys) (rnd : RandSrc)
    (mmove : Rect → Rect) (h : s.in_transition = true) :
    (s.update dt keys rnd mmove).player = s.player ∧
    (s.update dt keys rnd mmove).items = s.items ∧
    (s.update dt keys rnd mmove).missiles = s.missiles ∧
    (s.update dt keys rnd mmove).boss = s.boss ∧
    (s.update dt keys rnd mmove).level = s.level ∧
    (s.update dt keys rnd mmove).max_level = s.max_level ∧
    (s.update dt keys rnd mmove).spawn_timer = s.spawn_timer ∧
    (s.update dt keys rnd mmove).spawn_interval = s.spawn_interval ∧
    (s.update dt keys rnd mmove).max_items = s.max_items ∧
    (s.update dt keys rnd mmove).speed_multiplier = s.speed_multiplier ∧
    (s.update dt keys rnd mmove).next_scene = s.next_scene ∧
    (s.update dt keys rnd mmove).transition_duration = s.transition_duration ∧
    (s.update dt keys rnd mmove).transition_timer = s.transition_timer + dt ∧
    ((s.update dt keys rnd mmove).in_transition = false ↔
      s.transition_duration ≤ s.transition_timer + dt) := by
  unfold GameScene.update
  rw [if_pos h]
  dsimp only
  split
  · rename_i hge
    exact ⟨rfl, rfl, rfl, rfl, rfl, rfl, rfl, rfl, rfl, rfl, rfl, rfl, rfl,
      by simp [hge]⟩
  · rename_i hlt
    refine ⟨rfl, rfl, rfl, rfl, rfl, rfl, rfl, rfl, rfl, rfl, rfl, rfl, rfl, ?_⟩
    constructor
    · intro hfalse
      exact absurd hfalse (by simp [h])
    · intro hge
      exact absurd hge hlt

theorem c8_transition_freeze_witness :
    sceneA.in_transition = true ∧
    (sceneA.update 1 ⟨false, false, false, false, false⟩ ⟨0, 0, 0⟩ id).player = sceneA.player ∧
    (sceneA.update 1 ⟨false, false, false, false, false⟩ ⟨0, 0, 0⟩ id).transition_timer =
      sceneA.transition_timer + 1 :=
  ⟨rfl,
   (c8_transition_freeze sceneA 1 ⟨false, false, false, false, false⟩ ⟨0, 0, 0⟩ id rfl).1,
   (c8_transition_freeze sceneA 1 ⟨false, false, false, false, false⟩ ⟨0, 0, 0⟩ id rfl).2.2.2.2.2.2.2.2.2.2.2.2.1⟩

theorem totalWeight_cons (k : String) (wt : Nat) (rest : List (String × Nat)) :
    totalWeight ((k, wt) :: rest) = wt + totalWeight rest := by
  simp [totalWeight]

theorem prefixWeight_cons_succ (k : String) (wt : Nat) (rest : List (String × Nat))
    (i : Nat) : prefixWeight ((k, wt) :: rest) (i + 1) = wt + prefixWeight rest i := by
  simp [prefixWeight]

/-- The accumulation loop only ever answers with a key of the table. -/
theorem cumulativeWalk_mem (rand : Nat) (w : List (String × Nat)) :
    ∀ (acc : Nat) (k : String), cumulativeWalk rand w acc = some k →
      k ∈ w.map (fun kv => kv.1) := by
  induction w with
  | nil => intro acc k h; simp [cumulativeWalk] at h
  | cons kv rest ih =>
    intro acc k h
    obtain ⟨k0, wt⟩ := kv
    unfold cumulativeWalk at h
    split at h
    · injection h with h
      subst h
      simp
    · simpa using Or.inr (ih (acc + wt) k h)

/-- When the draw fits below the remaining total weight, the loop answers. -/
theorem cumulativeWalk_isSome (rand : Nat) (w : List (String × Nat)) :
    ∀ acc : Nat, acc < rand → rand ≤ acc + totalWeight w →
      (cumulativeWalk rand w acc).isSome = true := by
  induction w with
  | nil =>
    intro acc h1 h2
    rw [totalWeight] at h2
    simp at h2
    omega
  | cons kv rest ih =>
    intro acc h1 h2
    obtain ⟨k0, wt⟩ := kv
    rw [totalWeight_cons] at h2
    unfold cumulativeWalk
    split
    · rfl
    · rename_i hc
      exact ih (acc + wt) (by omega) (by omega)

/-- The accumulation loop computes exactly the spec-side description: the
first index (in declaration order) whose cumulative weight reaches the
draw. -/
theorem cumulativeWalk_find (rand : Nat) (w : List (String × Nat)) :
    ∀ acc : Nat,
      cumulativeWalk rand w acc =
        ((List.range w.length).find?
            (fun i => decide (rand ≤ acc + prefixWeight w (i + 1)))).map
          (fun i => (w.map (fun kv => kv.1)).getD i "") := by
  induction w with
  | nil => intro acc; simp [cumulativeWalk]
  | cons kv rest ih =>
    intro acc
    obtain ⟨k0, wt⟩ := kv
    rw [cumulativeWalk]
    have hrange : List.range (((k0, wt) :: rest).length) =
        0 :: (List.range rest.length).map Nat.succ := by
      simp [List.range_succ_eq_map]
    by_cases hc : rand ≤ acc + wt
    · have hp : (fun i => decide (rand ≤ acc + prefixWeight ((k0, wt) :: rest) (i + 1))) 0 =
          true := by
        simp [prefixWeight, hc]
      rw [if_pos hc, hrange,
        @List.find?_cons_of_pos Nat
          (fun i => decide (rand ≤ acc + prefixWeight ((k0, wt) :: rest) (i + 1))) 0
          ((List.range rest.length).map Nat.succ) hp]
      simp
    · have hp : ¬ ((fun i => decide (rand ≤ acc + prefixWeight ((k0, wt) :: rest) (i + 1))) 0 =
          true) := by
        simp [prefixWeight, hc]
      rw [if_neg hc, hrange,
        @List.find?_cons_of_neg Nat
          (fun i => decide (rand ≤ acc + prefixWeight ((k0, wt) :: rest) (i + 1))) 0
          ((List.range rest.length).map Nat.succ) hp]
      rw [ih (acc + wt), List.find?_map, Option.map_map]
      have hfun : ((fun i => decide (rand ≤ acc + prefixWeight ((k0, wt) :: rest) (i + 1))) ∘
          Nat.succ) = (fun i => decide (rand ≤ acc + wt + prefixWeight rest (i + 1))) := by
        funext i
        simp only [Function.comp_apply, Nat.succ_eq_add_one, prefixWeight_cons_succ]
        congr 1
        rw [eq_iff_iff]
        omega
      rw [hfun]
      congr 1

/-- For a nonempty table of nonzero total weight, every draw answers with a
key of the table (the walk answers a key, and the exhausted-walk fallback is
the first key). -/
theorem weightedItemSelection_mem (w : List (String × Nat)) (rand : Nat)
    (hne : w ≠ []) (ht : totalWeight w ≠ 0) :
    weightedItemSelection w rand ∈ w.map (fun kv => kv.1) := by
  unfold weightedItemSelection
  rw [if_neg ht]
  rcases h : cumulativeWalk rand w 0 with - | k
  · cases w with
    | nil => exact absurd rfl hne
    | cons kv rest => simp
  · exact cumulativeWalk_mem rand w 0 k h

/-- `random.choice` as performed by the compact controller is the
cumulative-weight technique over the all-weights-one table: drawing the
uniform integer `i + 1` returns element `i` of the list. -/
theorem cumulativeWalk_unit (tipos : List String) :
    ∀ (acc i : Nat),
      cumulativeWalk (acc + i + 1) (tipos.map (fun k => (k, 1))) acc = tipos[i]? := by
  induction tipos with
  | nil => intro acc i; simp [cumulativeWalk]
  | cons t rest ih =>
    intro acc i
    simp only [List.map_cons]
    rw [cumulativeWalk]
    cases i with
    | zero =>
      rw [if_pos (by omega)]
      simp
    | succ j =>
      rw [if_neg (by omega)]
      have harith : acc + (j + 1) + 1 = (acc + 1) + j + 1 := by omega
      rw [harith, ih (acc + 1) j]
      simp

/-- Claim C7: the spawn draw implements the cumulative-weight technique over
the level's kind-to-weight table — a total weight of zero falls back to the
baseline kind `"meia"`; a draw in `[1, total_weight]` returns exactly the
first kind (in declaration order) whose cumulative weight reaches the draw;
for each of the twelve configured level tables every draw returns a kind
present in the table; and the compact controller's uniform list choice
coincides with the technique over the all-weights-one table. -/
theorem c7_weighted_draw :
    (∀ (w : List (String × Nat)) (rand : Nat),
      totalWeight w = 0 → weightedItemSelection w rand = "meia") ∧
    (∀ (w : List (String × Nat)) (rand : Nat), 1 ≤ rand → rand ≤ totalWeight w →
      some (weightedItemSelection w rand) = specCumulativeDraw w rand) ∧
    (∀ (w : List (String × Nat)) (rand : Nat), w ≠ [] → totalWeight w ≠ 0 →
      weightedItemSelection w rand ∈ w.map (fun kv => kv.1)) ∧
    (∀ lvl : Nat, 1 ≤ lvl → lvl ≤ 12 → ∀ rand : Nat,
      weightedItemSelection (ngItemWeights lvl) rand ∈
        (ngItemWeights lvl).map (fun kv => kv.1)) ∧
    (∀ (tipos : List String) (i : Nat), i < tipos.length →
      specCumulativeDraw (tipos.map (fun k => (k, 1))) (i + 1) = tipos[i]?) := by
  refine ⟨?_, ?_, ?_, ?_, ?_⟩
  · intro w rand h
    unfold weightedItemSelection
    rw [if_pos h]
  · intro w rand h1 h2
    have ht : ¬ totalWeight w = 0 := by omega
    have hwalk := cumulativeWalk_find rand w 0
    simp only [zero_add] at hwalk
    obtain ⟨k, hk⟩ := Option.isSome_iff_exists.mp
      (cumulativeWalk_isSome rand w 0 (by omega) (by omega))
    rw [hk] at hwalk
    unfold weightedItemSelection specCumulativeDraw
    rw [if_neg ht]
    simp only [hk]
    exact hwalk
  · intro w rand hne ht
    exact weightedItemSelection_mem w rand hne ht
  · intro lvl h1 h2 rand
    interval_cases lvl <;>
      exact weightedItemSelection_mem _ rand (by decide) (by decide)
  · intro tipos i _
    have h1 := cumulativeWalk_find (i + 1) (tipos.map (fun k => (k, 1))) 0
    simp only [zero_add] at h1
    have h2 := cumulativeWalk_unit tipos 0 i
    simp only [zero_add] at h2
    unfold specCumulativeDraw
    rw [← h1, h2]

theorem c7_weighted_draw_witness :
    weightedItemSelection [] 7 = "meia" ∧
    some (weightedItemSelection (ngItemWeights 1) 60) = specCumulativeDraw (ngItemWeights 1) 60 ∧
    weightedItemSelection (ngItemWeights 4) 3 ∈ (ngItemWeights 4).map (fun kv => kv.1) ∧
    specCumulativeDraw (["meia", "cubo", "caneca"].map (fun k => (k, 1))) (2 + 1) =
      ["meia", "cubo", "caneca"][2]? :=
  ⟨c7_weighted_draw.1 [] 7 (by decide),
   c7_weighted_draw.2.1 (ngItemWeights 1) 60 (by decide) (by decide),
   c7_weighted_draw.2.2.2.1 4 (by decide) (by decide) 3,
   c7_weighted_draw.2.2.2.2 ["meia", "cubo", "caneca"] 2 (by decide)⟩

theorem GameScene.load_level_player (s : GameScene) (lvl : Nat) :
    (s.load_level lvl).player = s.player := by
  unfold GameScene.load_level
  dsimp only
  split <;> rfl

theorem GameScene.load_level_items (s : GameScene) (lvl : Nat) :
    (s.load_level lvl).items = [] := by
  unfold GameScene.load_level
  dsimp only
  split <;> rfl

theorem GameScene.start_level_transition_player_pontos (s : GameScene) (n : Nat) :
    (s.start_level_transition n).player.pontos = s.player.pontos := by
  show ((({ s with level := n }).load_level n).player).pontos = s.player.pontos
  rw [GameScene.load_level_player]

theorem GameScene.start_level_transition_player_vida (s : GameScene) (n : Nat) :
    (s.start_level_transition n).player.vida = s.player.vida := by
  show ((({ s with level := n }).load_level n).player).vida = s.player.vida
  rw [GameScene.load_level_player]

theorem GameScene.start_level_transition_items (s : GameScene) (n : Nat) :
    (s.start_level_transition n).items = [] := by
  show (({ s with level := n }).load_level n).items = []
  rw [GameScene.load_level_items]

theorem GameScene.spawnStep_player (s : GameScene) (dt : ℚ) (rnd : RandSrc) :
    (s.spawnStep dt rnd).player = s.player := by
  unfold GameScene.spawnStep
  dsimp only
  split <;> rfl

theorem GameScene.levelAdvance_player_pontos (s : GameScene) :
    (s.levelAdvance).player.pontos = s.player.pontos := by
  unfold GameScene.levelAdvance
  split
  · split
    · split
      · rw [GameScene.start_level_transition_player_pontos]
      · rfl
    · rfl
  · rfl

theorem GameScene.levelAdvance_player_vida (s : GameScene) :
    (s.levelAdvance).player.vida = s.player.vida := by
  unfold GameScene.levelAdvance
  split
  · split
    · split
      · rw [GameScene.start_level_transition_player_vida]
      · rfl
    · rfl
  · rfl

theorem GameScene.bossBranch_player_pontos (s : GameScene) (b : EntregadorTemporal)
    (dt : ℚ) (mmove : Rect → Rect) :
    (s.bossBranch b dt mmove).player.pontos = s.player.pontos := by
  unfold GameScene.bossBranch
  dsimp only
  split_ifs <;>
    first
      | rw [GameScene.start_level_transition_player_pontos]
      | rfl

theorem GameScene.bossBranch_player_vida (s : GameScene) (b : EntregadorTemporal)
    (dt : ℚ) (mmove : Rect → Rect) :
    (s.bossBranch b dt mmove).player.vida = s.player.vida := by
  unfold GameScene.bossBranch
  dsimp only
  split_ifs <;>
    first
      | rw [GameScene.start_level_transition_player_vida]
      | rfl

/-- One collision-dispatch iteration never lowers the score. -/
theorem processItem_pontos_mono (p : DonaNeide) (it : Item) :
    p.pontos ≤ (processItem p it).pontos := by
  unfold processItem
  split
  · exact le_rfl
  · split
    · exact le_rfl
    · split
      · rename_i hv
        dsimp only
        omega
      · split <;> exact le_rfl

theorem foldl_processItem_pontos_mono (hits : List Item) :
    ∀ p : DonaNeide, p.pontos ≤ (hits.foldl processItem p).pontos := by
  induction hits with
  | nil => intro p; exact le_rfl
  | cons it rest ih =>
    intro p
    calc p.pontos ≤ (processItem p it).pontos := processItem_pontos_mono p it
      _ ≤ (rest.foldl processItem (processItem p it)).pontos := ih _

theorem GameScene.itemCollisions_pontos_mono (s : GameScene) :
    s.player.pontos ≤ (s.itemCollisions).player.pontos := by
  unfold GameScene.itemCollisions
  dsimp only
  exact foldl_processItem_pontos_mono _ s.player

theorem GameScene.playStep_pontos_mono (s : GameScene) (dt : ℚ) (rnd : RandSrc) :
    s.player.pontos ≤ (s.playStep dt rnd).player.pontos := by
  unfold GameScene.playStep
  calc s.player.pontos
      = (s.spawnStep dt rnd).player.pontos := by rw [GameScene.spawnStep_player]
    _ ≤ ((s.spawnStep dt rnd).itemCollisions).player.pontos :=
        GameScene.itemCollisions_pontos_mono _
    _ = _ := (GameScene.levelAdvance_player_pontos _).symm

theorem NovoGameScene.ngLoadLevel_player (s : NovoGameScene) (lvl : Nat) :
    (s.load_level lvl).player = s.player := by
  unfold NovoGameScene.load_level
  dsimp only
  repeat' split
  all_goals rfl

theorem NovoGameScene.load_level_next (s : NovoGameScene) (lvl : Nat) :
    (s.load_level lvl).next_scene = s.next_scene := by
  unfold NovoGameScene.load_level
  dsimp only
  repeat' split
  all_goals rfl

theorem NovoGameScene.ngLoadLevel_items (s : NovoGameScene) (lvl : Nat) :
    (s.load_level lvl).items = [] := by
  unfold NovoGameScene.load_level
  dsimp only
  repeat' split
  all_goals rfl

theorem NovoGameScene.ngTransition_player_pontos (s : NovoGameScene) (n : Nat) :
    (s.start_level_transition n).player.pontos = s.player.pontos := by
  unfold NovoGameScene.start_level_transition
  split
  · rfl
  · try dsimp only
    rw [NovoGameScene.ngLoadLevel_player]

theorem NovoGameScene.ngTransition_player_vida (s : NovoGameScene) (n : Nat) :
    (s.start_level_transition n).player.vida = s.player.vida := by
  unfold NovoGameScene.start_level_transition
  split
  · rfl
  · try dsimp only
    rw [NovoGameScene.ngLoadLevel_player]

theorem NovoGameScene.start_level_transition_next (s : NovoGameScene) (n : Nat) :
    (s.start_level_transition n).next_scene = s.next_scene := by
  unfold NovoGameScene.start_level_transition
  split
  · rfl
  · try dsimp only
    rw [NovoGameScene.load_level_next]

theorem ngProcessItem_pontos_mono (s : NovoGameScene) (it : Item) :
    s.player.pontos ≤ (ngProcessItem s it).player.pontos := by
  unfold ngProcessItem NovoGameScene.handle_game_over
  try dsimp only
  split_ifs <;> (try dsimp only) <;> first | exact le_rfl | omega

theorem foldl_ngProcessItem_pontos_mono (hits : List Item) :
    ∀ t : NovoGameScene, t.player.pontos ≤ (hits.foldl ngProcessItem t).player.pontos := by
  induction hits with
  | nil => intro t; exact le_rfl
  | cons it rest ih =>
    intro t
    calc t.player.pontos ≤ (ngProcessItem t it).player.pontos := ngProcessItem_pontos_mono t it
      _ ≤ (rest.foldl ngProcessItem (ngProcessItem t it)).player.pontos := ih _

theorem NovoGameScene.ngSpawnStep_player (s : NovoGameScene) (dt : ℚ) (rnd : RandSrc) :
    (s.spawnStep dt rnd).player = s.player := by
  unfold NovoGameScene.spawnStep
  dsimp only
  split <;> rfl

theorem NovoGameScene.ngItemCollisions_pontos_mono (s : NovoGameScene) :
    s.player.pontos ≤ (s.itemCollisions).player.pontos := by
  unfold NovoGameScene.itemCollisions
  dsimp only
  exact foldl_ngProcessItem_pontos_mono _ _

theorem NovoGameScene.levelAdvance_pontos (s : NovoGameScene) :
    (s.levelAdvance).player.pontos = s.player.pontos := by
  unfold NovoGameScene.levelAdvance
  repeat' split
  all_goals first
    | rw [NovoGameScene.ngTransition_player_pontos]
    | rfl

theorem NovoGameScene.victoryCheck_pontos (s : NovoGameScene) :
    (s.victoryCheck).player.pontos = s.player.pontos := by
  unfold NovoGameScene.victoryCheck NovoGameScene.handle_victory
  dsimp only
  split_ifs <;> rfl

theorem NovoGameScene.missileCollisionPhase_pontos (s : NovoGameScene)
    (b : EntregadorTemporal) (ms : List CaixaMissil) :
    (s.missileCollisionPhase b ms).player.pontos = s.player.pontos := by
  unfold NovoGameScene.missileCollisionPhase NovoGameScene.handle_game_over
  dsimp only
  split_ifs <;>
    first
      | rw [NovoGameScene.ngTransition_player_pontos]
      | rfl

theorem NovoGameScene.bossBranch_pontos (s : NovoGameScene) (b : EntregadorTemporal)
    (dt : ℚ) (mmove : Rect → Rect) :
    (s.bossBranch b dt mmove).player.pontos = s.player.pontos := by
  unfold NovoGameScene.bossBranch
  dsimp only
  rw [NovoGameScene.missileCollisionPhase_pontos]

theorem NovoGameScene.ngPlayStep_pontos_mono (s : NovoGameScene) (dt : ℚ) (rnd : RandSrc) :
    s.player.pontos ≤ (s.playStep dt rnd).player.pontos := by
  unfold NovoGameScene.playStep
  calc s.player.pontos
      = (s.spawnStep dt rnd).player.pontos := by rw [NovoGameScene.ngSpawnStep_player]
    _ ≤ ((s.spawnStep dt rnd).itemCollisions).player.pontos :=
        NovoGameScene.ngItemCollisions_pontos_mono _
    _ = ((s.spawnStep dt rnd).itemCollisions).offscreenSweep.player.pontos := rfl
    _ = (((s.spawnStep dt rnd).itemCollisions).offscreenSweep).levelAdvance.player.pontos :=
        (NovoGameScene.levelAdvance_pontos _).symm
    _ = _ := (NovoGameScene.victoryCheck_pontos _).symm

/-- Claim C10: the score is non-decreasing across every `update(dt)` of both
scene controllers: slip, boost and damage collisions and projectile hits
never subtract from the score; only positive-value collections add to it. -/
theorem c10_score_monotone (dt : ℚ) (keys : Keys) (rnd : RandSrc) (mmove : Rect → Rect) :
    (∀ s : GameScene, s.player.pontos ≤ (s.update dt keys rnd mmove).player.pontos) ∧
    (∀ t : NovoGameScene, t.player.pontos ≤ (t.update dt keys rnd mmove).player.pontos) := by
  constructor
  · intro s
    unfold GameScene.update
    split
    · dsimp only
      split <;> exact le_rfl
    · dsimp only
      rcases hb : s.boss with - | b
      · exact le_trans (le_of_eq (DonaNeide.update_pontos s.player keys dt).symm)
          (GameScene.playStep_pontos_mono _ dt rnd)
      · split
        · split
          · rw [GameScene.bossBranch_player_pontos]
            exact le_of_eq (DonaNeide.update_pontos s.player keys dt).symm
          · exact le_trans (le_of_eq (DonaNeide.update_pontos s.player keys dt).symm)
              (GameScene.playStep_pontos_mono _ dt rnd)
        · rename_i heq
          exact absurd heq (by simp)
  · intro t
    unfold NovoGameScene.update
    split
    · dsimp only
      split <;> exact le_rfl
    · dsimp only
      rcases hb : t.boss with - | b
      · exact le_trans (le_of_eq (DonaNeide.update_pontos t.player keys dt).symm)
          (NovoGameScene.ngPlayStep_pontos_mono _ dt rnd)
      · split
        · split
          · rw [NovoGameScene.bossBranch_pontos]
            exact le_of_eq (DonaNeide.update_pontos t.player keys dt).symm
          · exact le_trans (le_of_eq (DonaNeide.update_pontos t.player keys dt).symm)
              (NovoGameScene.ngPlayStep_pontos_mono _ dt rnd)
        · rename_i heq
          exact absurd heq (by simp)

/-- The shape of every row of the controllers' item tables: positive value,
or one of the two pure-effect tags.  An item of this shape can never reach
the damage branch of the collision dispatch. -/
def goodItem (it : Item) : Prop :=
  0 < it.valor ∨ it.efeito = some "escorregar" ∨ it.efeito = some "boost"

/-- Every item of a pool satisfies `goodItem`. -/
def goodItems (l : List Item) : Prop :=
  ∀ it ∈ l, goodItem it

theorem goodItems_nil : goodItems [] :=
  fun it hit => absurd hit (List.not_mem_nil it)

theorem gsTipos_getD_mem (level : Nat) (i : Nat) :
    (gsTipos level).getD i "meia" ∈ ["meia", "cubo", "caneca", "banana", "toalha"] := by
  unfold gsTipos
  split_ifs <;>
    rcases i with - | - | - | - | - | i <;> simp [List.getD]

theorem goodItem_spawnedItem (level : Nat) (rnd : RandSrc) :
    goodItem (spawnedItem level rnd) := by
  have h := gsTipos_getD_mem level (rnd.pick % (gsTipos level).length)
  simp only [List.mem_cons, List.not_mem_nil, or_false] at h
  unfold spawnedItem goodItem
  dsimp only
  rcases h with h | h | h | h | h <;> rw [h] <;> decide

theorem goodItems_itemsUpdate (l : List Item) (dt : ℚ) (h : goodItems l) :
    goodItems (itemsUpdate l dt) := by
  intro it hit
  unfold itemsUpdate at hit
  have hmem := (List.mem_filter.mp hit).1
  obtain ⟨it0, hit0, heq⟩ := List.mem_map.mp hmem
  have hg := h it0 hit0
  rw [← heq]
  exact hg

theorem processItem_vida_good (p : DonaNeide) (it : Item) (h : goodItem it) :
    (processItem p it).vida = p.vida := by
  unfold processItem
  split_ifs <;> try rfl
  rename_i h1 h2 h3 _
  rcases h with hv | he | he
  · exact absurd hv h3
  · exact absurd he h1
  · exact absurd he h2

theorem foldl_processItem_vida_good (hits : List Item) :
    ∀ p : DonaNeide, (∀ it ∈ hits, goodItem it) →
      (hits.foldl processItem p).vida = p.vida := by
  induction hits with
  | nil => intro p _; rfl
  | cons it rest ih =>
    intro p h
    have h1 := processItem_vida_good p it (h it (List.mem_cons_self it rest))
    have h2 := ih (processItem p it) (fun x hx => h x (List.mem_cons_of_mem it hx))
    rw [List.foldl_cons, h2, h1]

theorem GameScene.spawnStep_goodItems (s : GameScene) (dt : ℚ) (rnd : RandSrc)
    (h : goodItems s.items) : goodItems (s.spawnStep dt rnd).items := by
  unfold GameScene.spawnStep
  dsimp only
  split
  · intro it hit
    rcases List.mem_append.mp hit with hmem | hmem
    · exact h it hmem
    · rw [List.mem_singleton] at hmem
      rw [hmem]
      exact goodItem_spawnedItem s.level rnd
  · exact h

theorem GameScene.itemCollisions_vida_good (s : GameScene) (h : goodItems s.items) :
    (s.itemCollisions).player.vida = s.player.vida ∧
    goodItems (s.itemCollisions).items := by
  unfold GameScene.itemCollisions
  dsimp only
  constructor
  · exact foldl_processItem_vida_good _ s.player
      (fun it hit => h it (List.mem_filter.mp hit).1)
  · intro it hit
    exact h it (List.mem_filter.mp hit).1

theorem GameScene.levelAdvance_goodItems (s : GameScene) (h : goodItems s.items) :
    goodItems (s.levelAdvance).items := by
  unfold GameScene.levelAdvance
  repeat' split
  all_goals first
    | (rw [GameScene.start_level_transition_items]; exact goodItems_nil)
    | exact h

theorem GameScene.bossBranch_goodItems (s : GameScene) (b : EntregadorTemporal)
    (dt : ℚ) (mmove : Rect → Rect) (h : goodItems s.items) :
    goodItems (s.bossBranch b dt mmove).items := by
  unfold GameScene.bossBranch
  dsimp only
  split_ifs <;>
    first
      | (rw [GameScene.start_level_transition_items]; exact goodItems_nil)
      | exact h

theorem GameScene.playStep_vida_good (s : GameScene) (dt : ℚ) (rnd : RandSrc)
    (h : goodItems s.items) :
    (s.playStep dt rnd).player.vida = s.player.vida ∧
    goodItems (s.playStep dt rnd).items := by
  unfold GameScene.playStep
  have h1 := GameScene.spawnStep_goodItems s dt rnd h
  have h2 := GameScene.itemCollisions_vida_good _ h1
  have h3 := GameScene.levelAdvance_player_vida ((s.spawnStep dt rnd).itemCollisions)
  have h4 := GameScene.levelAdvance_goodItems _ h2.2
  refine ⟨?_, h4⟩
  rw [h3, h2.1, GameScene.spawnStep_player]

theorem GameScene.update_vida_good (s : GameScene) (dt : ℚ) (keys : Keys)
    (rnd : RandSrc) (mmove : Rect → Rect) (h : goodItems s.items) :
    (s.update dt keys rnd mmove).player.vida = s.player.vida ∧
    goodItems (s.update dt keys rnd mmove).items := by
  unfold GameScene.update
  split
  · dsimp only
    split
    · exact ⟨rfl, h⟩
    · exact ⟨rfl, h⟩
  · dsimp only
    have hg2 : goodItems (itemsUpdate s.items dt) := goodItems_itemsUpdate _ _ h
    rcases hb : s.boss with - | b
    · dsimp only
      have hps := GameScene.playStep_vida_good
        { s with player := s.player.update keys dt, items := itemsUpdate s.items dt,
                 boss := none } dt rnd hg2
      refine ⟨?_, hps.2⟩
      rw [hps.1]
      exact DonaNeide.update_vida s.player keys dt
    · dsimp only
      split
      · refine ⟨?_, GameScene.bossBranch_goodItems _ _ dt mmove hg2⟩
        rw [GameScene.bossBranch_player_vida]
        exact DonaNeide.update_vida s.player keys dt
      · have hps := GameScene.playStep_vida_good
          { s with player := s.player.update keys dt, items := itemsUpdate s.items dt,
                   boss := some b } dt rnd hg2
        refine ⟨?_, hps.2⟩
        rw [hps.1]
        exact DonaNeide.update_vida s.player keys dt

/-- One tick of the driver loop: the random draws and the homing displacement
consumed by `GameScene.update` during that tick. -/
structure StepInput where
  dt : ℚ
  keys : Keys
  rnd : RandSrc
  mmove : Rect → Rect

/-- A whole session: fold the controller's `update` over a list of ticks. -/
def GameScene.run (s : GameScene) (steps : List StepInput) : GameScene :=
  steps.foldl (fun s i => s.update i.dt i.keys i.rnd i.mmove) s

theorem GameScene.init_items (level : Nat) : (GameScene.init level).items = [] := by
  unfold GameScene.init
  dsimp only
  rw [GameScene.load_level_items]

theorem GameScene.init_vida (level : Nat) : (GameScene.init level).player.vida = 3 := by
  unfold GameScene.init
  dsimp only
  rw [GameScene.load_level_player]
  rfl

/-- Claim C9: the player's life count is an integer that stays ≥ 0 across any
sequence of controller updates from a fresh scene — no sequence of updates
and collisions drives it below zero.  (In the compact controller every
spawnable item row has a positive value or a pure-effect tag, so the damage
branch of the dispatch is unreachable and life in fact never changes.) -/
theorem c9_vida_nonneg (level : Nat) (steps : List StepInput) :
    0 ≤ ((GameScene.init level).run steps).player.vida := by
  suffices h : ∀ s : GameScene, goodItems s.items → 0 ≤ s.player.vida →
      goodItems (s.run steps).items ∧ 0 ≤ (s.run steps).player.vida by
    refine (h (GameScene.init level) ?_ ?_).2
    · rw [GameScene.init_items]
      exact goodItems_nil
    · rw [GameScene.init_vida]
      omega
  induction steps with
  | nil => intro s hg hv; exact ⟨hg, hv⟩
  | cons i rest ih =>
    intro s hg hv
    have hu := GameScene.update_vida_good s i.dt i.keys i.rnd i.mmove hg
    exact ih _ hu.2 (by rw [hu.1]; exact hv)

theorem EntregadorTemporal.register_hit_hits (b : EntregadorTemporal) :
    b.register_hit.hits_taken = b.hits_taken + 1 := by
  unfold EntregadorTemporal.register_hit
  dsimp only
  split_ifs <;> rfl

theorem NovoGameScene.load_level_missiles (s : NovoGameScene) (lvl : Nat) :
    (s.load_level lvl).missiles = [] := by
  unfold NovoGameScene.load_level
  dsimp only
  repeat' split
  all_goals rfl

theorem mem_filter_not_collide (pr : Rect) (ms : List CaixaMissil) (m : CaixaMissil)
    (hm : m ∈ ms.filter (fun m => !(pr.colliderect m.rect))) :
    ¬ pr.colliderect m.rect = true := by
  have h := (List.mem_filter.mp hm).2
  simp only [Bool.not_eq_true'] at h
  simp [h]

/-- Claim C3: in the boss encounter's projectile-collision step, for every
tick in which some projectile overlaps the player: with the shield down, all
overlapping projectiles are destroyed and life drops by exactly 1 (the boss
untouched); with the shield up, all overlapping projectiles are destroyed,
life is unchanged, and exactly one hit is registered against the boss (with
the level transition firing only on the killing hit). -/
theorem c3_projectile_shield_gating (s : NovoGameScene) (b : EntregadorTemporal)
    (ms : List CaixaMissil) (hov : ∃ m ∈ ms, s.player.rect.colliderect m.rect) :
    (s.player.shield_active = false →
      (s.missileCollisionPhase b ms).player.vida = s.player.vida - 1 ∧
      (s.missileCollisionPhase b ms).missiles =
        ms.filter (fun m => !(s.player.rect.colliderect m.rect)) ∧
      (s.missileCollisionPhase b ms).boss = some b) ∧
    (s.player.shield_active = true →
      (s.missileCollisionPhase b ms).player.vida = s.player.vida ∧
      b.register_hit.hits_taken = b.hits_taken + 1 ∧
      (∀ m ∈ (s.missileCollisionPhase b ms).missiles,
        ¬ s.player.rect.colliderect m.rect = true) ∧
      (b.register_hit.dead = false →
        (s.missileCollisionPhase b ms).boss = some b.register_hit ∧
        (s.missileCollisionPhase b ms).missiles =
          ms.filter (fun m => !(s.player.rect.colliderect m.rect)))) := by
  have hany : (ms.any fun m => s.player.rect.colliderect m.rect) = true :=
    List.any_eq_true.mpr hov
  constructor
  · intro hs
    have hcond : ¬ (s.player.shield_active = true) := by rw [hs]; simp
    unfold NovoGameScene.missileCollisionPhase
    rw [if_neg hcond]
    dsimp only
    rw [if_pos hany]
    split <;> exact ⟨rfl, rfl, rfl⟩
  · intro hs
    unfold NovoGameScene.missileCollisionPhase
    rw [if_pos hs]
    dsimp only
    rw [if_pos hany]
    by_cases hd : b.register_hit.dead = true
    · rw [if_pos hd]
      refine ⟨?_, EntregadorTemporal.register_hit_hits b, ?_, ?_⟩
      · rw [NovoGameScene.ngTransition_player_vida]
      · intro m hm
        revert hm
        unfold NovoGameScene.start_level_transition
        split
        · intro hm
          exact mem_filter_not_collide _ _ _ hm
        · dsimp only
          rw [NovoGameScene.load_level_missiles]
          intro hm
          exact absurd hm (List.not_mem_nil m)
      · intro hdead
        rw [hdead] at hd
        exact absurd hd (by simp)
    · rw [if_neg hd]
      refine ⟨rfl, EntregadorTemporal.register_hit_hits b, ?_, fun _ => ⟨rfl, rfl⟩⟩
      intro m hm
      exact mem_filter_not_collide _ _ _ hm

/-- A missile placed exactly on the fresh player's rect, to witness C3. -/
def missileC3 : CaixaMissil :=
  { rect := ⟨368, 516, 40, 40⟩, speed := 300 }

/-- A boss-level scene with the shield down, to witness C3. -/
def sceneC3 : NovoGameScene :=
  { next_scene := SceneRef.controller
    player := DonaNeide.init
    level := 4
    max_level := 12
    spawn_interval := 2
    max_items := 6
    speed_multiplier := 13/10
    current_item_weights := ngItemWeights 4
    spawn_timer := 0
    items := []
    boss := some EntregadorTemporal.init
    missiles := [missileC3]
    in_transition := false
    transition_timer := 0
    transition_duration := 5/2
    game_state := NGState.bossFight }

theorem c3_projectile_shield_gating_witness :
    (∃ m ∈ [missileC3], sceneC3.player.rect.colliderect m.rect) ∧
    sceneC3.player.shield_active = false ∧
    (sceneC3.missileCollisionPhase EntregadorTemporal.init [missileC3]).player.vida =
      sceneC3.player.vida - 1 :=
  ⟨by decide, rfl,
   ((c3_projectile_shield_gating sceneC3 EntregadorTemporal.init [missileC3]
      (by decide)).1 rfl).1⟩

/-- The two facts C2 needs about a state transformation of the embellished
controller: it never resets `next_scene` back to the controller, and it
preserves "life ≤ 0 implies already handed off". -/
def ngStepOk (s s2 : NovoGameScene) : Prop :=
  (s2.next_scene = SceneRef.controller → s.next_scene = SceneRef.controller) ∧
  ((s.player.vida ≤ 0 → s.next_scene ≠ SceneRef.controller) →
    (s2.player.vida ≤ 0 → s2.next_scene ≠ SceneRef.controller))

theorem ngStepOk_of_eq (s s2 : NovoGameScene) (h1 : s2.next_scene = s.next_scene)
    (h2 : s2.player.vida = s.player.vida) : ngStepOk s s2 := by
  constructor
  · intro h
    rw [h1] at h
    exact h
  · intro hs hv
    rw [h1]
    apply hs
    rw [← h2]
    exact hv

theorem ngStepOk_trans (s s2 s3 : NovoGameScene) (a : ngStepOk s s2)
    (b : ngStepOk s2 s3) : ngStepOk s s3 :=
  ⟨fun h => a.1 (b.1 h), fun hs => b.2 (a.2 hs)⟩

theorem ngStepOk_processItem (s : NovoGameScene) (it : Item) :
    ngStepOk s (ngProcessItem s it) := by
  unfold ngProcessItem NovoGameScene.handle_game_over
  dsimp only
  split_ifs with h1 h2 h3 h4 h5
  · exact ngStepOk_of_eq _ _ rfl rfl
  · exact ngStepOk_of_eq _ _ rfl rfl
  · exact ngStepOk_of_eq _ _ rfl rfl
  · constructor
    · intro h
      exact absurd h (by simp)
    · intro _ _
      simp
  · constructor
    · intro h
      exact h
    · intro _ hv
      exact absurd hv h5
  · exact ngStepOk_of_eq _ _ rfl rfl

theorem ngStepOk_foldl (hits : List Item) :
    ∀ t : NovoGameScene, ngStepOk t (hits.foldl ngProcessItem t) := by
  induction hits with
  | nil => intro t; exact ngStepOk_of_eq _ _ rfl rfl
  | cons it rest ih =>
    intro t
    exact ngStepOk_trans _ _ _ (ngStepOk_processItem t it) (ih (ngProcessItem t it))

theorem ngStepOk_itemCollisions (s : NovoGameScene) : ngStepOk s s.itemCollisions := by
  unfold NovoGameScene.itemCollisions
  dsimp only
  exact ngStepOk_trans _ _ _ (ngStepOk_of_eq _ _ rfl rfl) (ngStepOk_foldl _ _)

theorem NovoGameScene.spawnStep_next (s : NovoGameScene) (dt : ℚ) (rnd : RandSrc) :
    (s.spawnStep dt rnd).next_scene = s.next_scene := by
  unfold NovoGameScene.spawnStep
  dsimp only
  split <;> rfl

theorem NovoGameScene.levelAdvance_next (s : NovoGameScene) :
    (s.levelAdvance).next_scene = s.next_scene := by
  unfold NovoGameScene.levelAdvance
  repeat' split
  all_goals first
    | rw [NovoGameScene.start_level_transition_next]
    | rfl

theorem NovoGameScene.levelAdvance_vida (s : NovoGameScene) :
    (s.levelAdvance).player.vida = s.player.vida := by
  unfold NovoGameScene.levelAdvance
  repeat' split
  all_goals first
    | rw [NovoGameScene.ngTransition_player_vida]
    | rfl

theorem ngStepOk_victoryCheck (s : NovoGameScene) : ngStepOk s s.victoryCheck := by
  unfold NovoGameScene.victoryCheck NovoGameScene.handle_victory
  dsimp only
  split_ifs
  · constructor
    · intro h
      exact absurd h (by simp)
    · intro _ _
      simp
  · exact ngStepOk_of_eq _ _ rfl rfl
  · exact ngStepOk_of_eq _ _ rfl rfl

theorem ngStepOk_missileCollisionPhase (s : NovoGameScene) (b : EntregadorTemporal)
    (ms : List CaixaMissil) : ngStepOk s (s.missileCollisionPhase b ms) := by
  unfold NovoGameScene.missileCollisionPhase NovoGameScene.handle_game_over
  dsimp only
  split_ifs with h1 h2 h3 h4 h5
  · exact ngStepOk_of_eq _ _ (by rw [NovoGameScene.start_level_transition_next])
      (by rw [NovoGameScene.ngTransition_player_vida])
  · exact ngStepOk_of_eq _ _ rfl rfl
  · exact ngStepOk_of_eq _ _ rfl rfl
  · constructor
    · intro h
      exact absurd h (by simp)
    · intro _ _
      simp
  · constructor
    · intro h
      exact h
    · intro _ hv
      exact absurd hv h5
  · exact ngStepOk_of_eq _ _ rfl rfl

theorem ngStepOk_bossBranch (s : NovoGameScene) (b : EntregadorTemporal) (dt : ℚ)
    (mmove : Rect → Rect) : ngStepOk s (s.bossBranch b dt mmove) := by
  unfold NovoGameScene.bossBranch
  dsimp only
  exact ngStepOk_missileCollisionPhase _ _ _

theorem ngStepOk_playStep (s : NovoGameScene) (dt : ℚ) (rnd : RandSrc) :
    ngStepOk s (s.playStep dt rnd) := by
  unfold NovoGameScene.playStep
  have o1 : ngStepOk s (s.spawnStep dt rnd) :=
    ngStepOk_of_eq _ _ (NovoGameScene.spawnStep_next s dt rnd)
      (by rw [NovoGameScene.ngSpawnStep_player])
  have o2 := ngStepOk_itemCollisions (s.spawnStep dt rnd)
  have o3 : ngStepOk ((s.spawnStep dt rnd).itemCollisions)
      (((s.spawnStep dt rnd).itemCollisions).offscreenSweep) :=
    ngStepOk_of_eq _ _ rfl rfl
  have o4 : ngStepOk (((s.spawnStep dt rnd).itemCollisions).offscreenSweep)
      ((((s.spawnStep dt rnd).itemCollisions).offscreenSweep).levelAdvance) :=
    ngStepOk_of_eq _ _ (NovoGameScene.levelAdvance_next _)
      (NovoGameScene.levelAdvance_vida _)
  have o5 := ngStepOk_victoryCheck
    ((((s.spawnStep dt rnd).itemCollisions).offscreenSweep).levelAdvance)
  exact ngStepOk_trans _ _ _ o1 (ngStepOk_trans _ _ _ o2
    (ngStepOk_trans _ _ _ o3 (ngStepOk_trans _ _ _ o4 o5)))

theorem ngStepOk_update (s : NovoGameScene) (dt : ℚ) (keys : Keys) (rnd : RandSrc)
    (mmove : Rect → Rect) : ngStepOk s (s.update dt keys rnd mmove) := by
  unfold NovoGameScene.update
  split
  · dsimp only
    split
    · exact ngStepOk_of_eq _ _ rfl rfl
    · exact ngStepOk_of_eq _ _ rfl rfl
  · dsimp only
    rcases hb : s.boss with - | b
    · dsimp only
      exact ngStepOk_trans _ _ _
        (ngStepOk_of_eq s
          { s with player := s.player.update keys dt, items := itemsUpdate s.items dt,
                   boss := none }
          rfl (DonaNeide.update_vida s.player keys dt))
        (ngStepOk_playStep _ dt rnd)
    · dsimp only
      split
      · exact ngStepOk_trans _ _ _
          (ngStepOk_of_eq s
            { s with player := s.player.update keys dt, items := itemsUpdate s.items dt,
                     boss := some b }
            rfl (DonaNeide.update_vida s.player keys dt))
          (ngStepOk_bossBranch _ b dt mmove)
      · exact ngStepOk_trans _ _ _
          (ngStepOk_of_eq s
            { s with player := s.player.update keys dt, items := itemsUpdate s.items dt,
                     boss := some b }
            rfl (DonaNeide.update_vida s.player keys dt))
          (ngStepOk_playStep _ dt rnd)

/-- Claim C2: whenever the player's life reaches 0 during an update of the
embellished controller, the controller hands off — after the update
`next_scene` is no longer the controller itself — and the exit is one-way:
no update ever points `next_scene` back at the controller. -/
theorem c2_game_over_handoff (s : NovoGameScene) (dt : ℚ) (keys : Keys) (rnd : RandSrc)
    (mmove : Rect → Rect) :
    ((s.update dt keys rnd mmove).next_scene = SceneRef.controller →
      s.next_scene = SceneRef.controller) ∧
    (0 < s.player.vida → (s.update dt keys rnd mmove).player.vida ≤ 0 →
      (s.update dt keys rnd mmove).next_scene ≠ SceneRef.controller) := by
  have hok := ngStepOk_update s dt keys rnd mmove
  refine ⟨hok.1, ?_⟩
  intro hpos hv
  exact hok.2 (fun h0 => absurd hpos (by omega)) hv

theorem qtrunc_intCast (n : ℤ) : qtrunc ((n : ℚ)) = n := by
  unfold qtrunc
  split
  · exact Int.floor_intCast n
  · exact Int.ceil_intCast n

/-- A boss-level scene one unblocked hit from death, to witness C2. -/
def sceneC2 : NovoGameScene :=
  { next_scene := SceneRef.controller
    player := { DonaNeide.init with vida := 1 }
    level := 4
    max_level := 12
    spawn_interval := 2
    max_items := 6
    speed_multiplier := 13/10
    current_item_weights := ngItemWeights 4
    spawn_timer := 0
    items := []
    boss := some EntregadorTemporal.init
    missiles := [missileC3]
    in_transition := false
    transition_timer := 0
    transition_duration := 5/2
    game_state := NGState.bossFight }

theorem c2_game_over_handoff_witness :
    0 < sceneC2.player.vida ∧
    (sceneC2.update 0 ⟨false, false, false, false, false⟩ ⟨0, 0, 0⟩ id).player.vida ≤ 0 ∧
    (sceneC2.update 0 ⟨false, false, false, false, false⟩ ⟨0, 0, 0⟩ id).next_scene ≠
      SceneRef.controller := by
  have hv : (sceneC2.update 0 ⟨false, false, false, false, false⟩
      ⟨0, 0, 0⟩ id).player.vida ≤ 0 := by
    norm_num [sceneC2, missileC3, NovoGameScene.update, NovoGameScene.bossBranch,
      NovoGameScene.missileCollisionPhase, NovoGameScene.handle_game_over,
      missilesUpdate, itemsUpdate, EntregadorTemporal.update,
      EntregadorTemporal.ready_to_fire, DonaNeide.update, DonaNeide.slipPhase,
      DonaNeide.processInput, DonaNeide.shieldPhase, DonaNeide.boostPhase,
      DonaNeide.init, EntregadorTemporal.init, qtrunc, qtrunc_intCast,
      Int.floor_natCast, Int.floor_ofNat, Int.ceil_natCast, Int.ceil_ofNat,
      Rect.colliderect, Rect.left, Rect.right, Rect.top, Rect.bottom]
  exact ⟨by decide, hv,
    (c2_game_over_handoff sceneC2 0 ⟨false, false, false, false, false⟩ ⟨0, 0, 0⟩ id).2
      (by decide) hv⟩
